import Mathlib

/-!
Verification of the session-store core of the `groqddbot` chat bot.

The development shallowly embeds the Rust sources:
  * `src/chat.rs`   — `Session`, its bounded FIFO history, `send_message`,
    `pop_last_interaction`;
  * `src/bot.rs`    — the two-level session store (`BotDataInner.session`,
    `BotDataInner.flush`) and the flush interval constants;
  * `src/config.rs` — the configuration validation stage of `App::parse`.

The remote chat-completion backend (the `genai` client held by `User`) is
external I/O; it is modelled as an explicit function argument
`backend : List ChatMessage → Except GenaiError ChatResponse` standing for
`genai::Client::exec_chat`. Rust panics (the `unwrap` calls in
`User::send_message`) are modelled explicitly by the `RunResult.panicked`
constructor, so that faulting and returning an error are distinguishable.
-/

/-- Roles of chat messages, as in `genai::chat::ChatMessage`. -/
inductive Role where
  | user
  | assistant
deriving DecidableEq

/-- A chat message: a role together with its textual content
(`genai::chat::ChatMessage` restricted to the constructors the program uses). -/
structure ChatMessage where
  role : Role
  content : String
deriving DecidableEq

/-- `ChatMessage::user` from the `genai` crate. -/
def ChatMessage.user (content : String) : ChatMessage :=
  ⟨Role.user, content⟩

/-- `ChatMessage::assistant` from the `genai` crate. -/
def ChatMessage.assistant (content : String) : ChatMessage :=
  ⟨Role.assistant, content⟩

/-- The message content of a chat response (`genai::chat::MessageContent`):
either plain text or some non-textual content. -/
inductive MessageContent where
  | text : String → MessageContent
  | other : MessageContent
deriving DecidableEq

/-- `MessageContent::text_into_string`: `some` exactly for textual content. -/
def MessageContent.text_into_string : MessageContent → Option String
  | MessageContent.text s => some s
  | MessageContent.other => none

/-- A chat response (`genai::chat::ChatResponse`): the `content` field is
optional, as in the crate. -/
structure ChatResponse where
  content : Option MessageContent
deriving DecidableEq

/-- An opaque backend error (`genai::Error`). -/
structure GenaiError where
  msg : String
deriving DecidableEq

/-- Result of running a fallible Rust function that may also panic: `ok` and
`error` are the two sides of the Rust `Result`; `panicked` marks a panic
(an `unwrap` of `None`). -/
inductive RunResult (α : Type) where
  | ok : α → RunResult α
  | error : GenaiError → RunResult α
  | panicked : RunResult α
deriving DecidableEq

/-- `User::send_message` (src/chat.rs lines 26-31): runs the backend call and
maps a successful response through `cr.content.unwrap().text_into_string().unwrap()`.
Each `unwrap` of a `None` is a panic, modelled by `RunResult.panicked`. -/
def User.send_message (backend : List ChatMessage → Except GenaiError ChatResponse)
    (request : List ChatMessage) : RunResult String :=
  match backend request with
  | Except.error e => RunResult.error e
  | Except.ok cr =>
    match cr.content with
    | none => RunResult.panicked
    | some mc =>
      match mc.text_into_string with
      | none => RunResult.panicked
      | some s => RunResult.ok s

/-- One user-message/assistant-message pair (`Interaction` in src/chat.rs). -/
structure Interaction where
  user_message : ChatMessage
  assistant_message : ChatMessage
deriving DecidableEq

/-- A chat session (`Session` in src/chat.rs): the bounded history of
interactions. The `capacity` field is the fixed capacity of the Rust
`VecDeque` created by `VecDeque::with_capacity(history_size)`; the backend
handle (`user` field in Rust) is external I/O and is passed to
`Session.send_message` as the `backend` argument. The list front is the
deque front (oldest interaction). -/
structure Session where
  capacity : Nat
  history : List Interaction
deriving DecidableEq

/-- `Session::new` (src/chat.rs lines 47-52): an empty history with the given
capacity. -/
def Session.new (history_size : Nat) : Session :=
  ⟨history_size, []⟩

/-- `Session::append_to_history` (src/chat.rs lines 54-60): when the deque is
full (`len == capacity`), pop the front (oldest) first, then push the new
interaction at the back. -/
def Session.append_to_history (s : Session) (i : Interaction) : Session :=
  if s.history.length = s.capacity then
    { s with history := s.history.tail ++ [i] }
  else
    { s with history := s.history ++ [i] }

/-- `Session::send_message` (src/chat.rs lines 62-84): build the request as
the history flattened in order (user message then assistant message of each
interaction) followed by the new user message, run the backend call, and on
success append the new interaction and return the response. On error the
`?` operator returns early, before any mutation. -/
def Session.send_message (backend : List ChatMessage → Except GenaiError ChatResponse)
    (s : Session) (content : String) : RunResult String × Session :=
  let user_message := ChatMessage.user content
  let messages :=
    (s.history.flatMap (fun p => [p.user_message, p.assistant_message])) ++ [user_message]
  match User.send_message backend messages with
  | RunResult.ok response =>
      (RunResult.ok response,
        s.append_to_history ⟨user_message, ChatMessage.assistant response⟩)
  | RunResult.error e => (RunResult.error e, s)
  | RunResult.panicked => (RunResult.panicked, s)

/-- `Session::pop_last_interaction` (src/chat.rs lines 86-88): drop the most
recently appended interaction, a no-op on an empty history (the Rust
`pop_back` returns an ignored `Option`). -/
def Session.pop_last_interaction (s : Session) : Session :=
  { s with history := s.history.dropLast }

/-- The request `Session::send_message` hands to the backend, as the spec
describes it: the ordered flattening of the history followed by the new
user message. -/
def request_of (s : Session) (content : String) : List ChatMessage :=
  (s.history.flatMap (fun p => [p.user_message, p.assistant_message]))
    ++ [ChatMessage.user content]

/-- Folding a sequence of interactions into the history, one successful send
at a time (`append_to_history` applied in order). -/
def append_all (s : Session) (is : List Interaction) : Session :=
  is.foldl Session.append_to_history s

/-- C3: if the backend call inside `send_message` fails, the error is returned
unchanged and the session (hence its history) is exactly as before the call. -/
theorem send_message_backend_error
    (backend : List ChatMessage → Except GenaiError ChatResponse)
    (s : Session) (content : String) (e : GenaiError)
    (h : backend (request_of s content) = Except.error e) :
    Session.send_message backend s content = (RunResult.error e, s) := by
  simp only [Session.send_message, User.send_message, request_of] at h ⊢
  rw [h]

/-- Witness for C3 at a concrete backend failure. -/
theorem send_message_backend_error_witness :
    Session.send_message (fun _ => Except.error ⟨"network"⟩) (Session.new 2) "hi"
      = (RunResult.error ⟨"network"⟩, Session.new 2) :=
  send_message_backend_error (fun _ => Except.error ⟨"network"⟩) (Session.new 2) "hi"
    ⟨"network"⟩ rfl

/-- C4: behaviour of `send_message` on a response with missing or empty
content. A response whose `content` field is `None` makes the `unwrap` in
`User::send_message` panic (the call faults instead of returning a backend
error), and a response whose content is the empty string is treated as a
success: `send_message` returns it and appends the interaction. -/
theorem send_message_empty_content_faults :
    (Session.send_message (fun _ => Except.ok ⟨none⟩) (Session.new 3) "hi"
      = (RunResult.panicked, Session.new 3)) ∧
    ((Session.send_message (fun _ => Except.ok ⟨some (MessageContent.text "")⟩)
        (Session.new 3) "hi").1 = RunResult.ok "") := by
  constructor <;> rfl

/-- C5: when the backend call succeeds, `send_message` returns the received
response and appends the interaction `(user_text, assistant_text)`; and the
request it hands to the backend is exactly the ordered flattening of the
history (user message then assistant message of each interaction) followed
by the new user message. -/
theorem send_message_request_and_success
    (backend : List ChatMessage → Except GenaiError ChatResponse)
    (s : Session) (content resp : String)
    (h : User.send_message backend (request_of s content) = RunResult.ok resp) :
    Session.send_message backend s content
      = (RunResult.ok resp,
         s.append_to_history ⟨ChatMessage.user content, ChatMessage.assistant resp⟩) ∧
    request_of s content
      = (s.history.flatMap (fun p => [p.user_message, p.assistant_message]))
          ++ [ChatMessage.user content] := by
  refine ⟨?_, rfl⟩
  simp only [Session.send_message, request_of] at h ⊢
  rw [h]

/-- Witness for C5 at a concrete successful backend call. -/
theorem send_message_request_and_success_witness :
    Session.send_message (fun _ => Except.ok ⟨some (MessageContent.text "A")⟩)
        (Session.new 2) "a"
      = (RunResult.ok "A",
         (Session.new 2).append_to_history
           ⟨ChatMessage.user "a", ChatMessage.assistant "A"⟩) ∧
    request_of (Session.new 2) "a"
      = ((Session.new 2).history.flatMap
           (fun p => [p.user_message, p.assistant_message]))
          ++ [ChatMessage.user "a"] :=
  send_message_request_and_success
    (fun _ => Except.ok ⟨some (MessageContent.text "A")⟩) (Session.new 2) "a" "A" rfl

/-- C8: `pop_last_interaction` never faults: it removes exactly the last
(most recently appended) interaction when one exists — its result is
`dropLast` of the history — it is the identity on a session with empty
history, and it removes at most one interaction. -/
theorem pop_last_interaction_safe (s : Session) (c : Nat) :
    s.pop_last_interaction.history = s.history.dropLast ∧
    Session.pop_last_interaction ⟨c, []⟩ = ⟨c, []⟩ ∧
    s.history.length - 1 ≤ s.pop_last_interaction.history.length := by
  refine ⟨rfl, rfl, ?_⟩
  simp [Session.pop_last_interaction]

/-- Whether a `RunResult` is a success. -/
def RunResult.isOk {α : Type} : RunResult α → Bool
  | RunResult.ok _ => true
  | RunResult.error _ => false
  | RunResult.panicked => false

/-- Unfolding of `Session.send_message` through `request_of`. -/
theorem send_message_eq (backend : List ChatMessage → Except GenaiError ChatResponse)
    (s : Session) (content : String) :
    Session.send_message backend s content =
      match User.send_message backend (request_of s content) with
      | RunResult.ok resp =>
          (RunResult.ok resp,
           s.append_to_history ⟨ChatMessage.user content, ChatMessage.assistant resp⟩)
      | RunResult.error e => (RunResult.error e, s)
      | RunResult.panicked => (RunResult.panicked, s) := rfl

/-- C2 counterexample: on a session whose history is full (capacity 1 holding
one interaction), a successful send followed by `pop_last_interaction` does
not restore the pre-send history — the evicted oldest interaction is lost. -/
theorem send_then_pop_full_counterexample :
    (Session.send_message (fun _ => Except.ok ⟨some (MessageContent.text "B")⟩)
        ⟨1, [⟨ChatMessage.user "a", ChatMessage.assistant "A"⟩]⟩ "b").1
      = RunResult.ok "B" ∧
    ((Session.send_message (fun _ => Except.ok ⟨some (MessageContent.text "B")⟩)
        ⟨1, [⟨ChatMessage.user "a", ChatMessage.assistant "A"⟩]⟩ "b").2.pop_last_interaction).history
      ≠ [⟨ChatMessage.user "a", ChatMessage.assistant "A"⟩] := by
  constructor
  · rfl
  · decide

/-- C2 amended: after a successful `send_message`, `pop_last_interaction`
restores the pre-send history exactly when the history was not full before
the send; when it was full, the result is the pre-send history minus the
evicted oldest interaction. -/
theorem send_then_pop_amended
    (backend : List ChatMessage → Except GenaiError ChatResponse)
    (s : Session) (content : String)
    (hok : (Session.send_message backend s content).1.isOk = true) :
    ((Session.send_message backend s content).2.pop_last_interaction).history
      = if s.history.length = s.capacity then s.history.tail else s.history := by
  rw [send_message_eq] at hok ⊢
  rcases h : User.send_message backend (request_of s content) with resp | e | _
  · simp only [Session.append_to_history, Session.pop_last_interaction]
    split
    · simp
    · simp
  · rw [h] at hok
    simp [RunResult.isOk] at hok
  · rw [h] at hok
    simp [RunResult.isOk] at hok

/-- Witness for the amended C2 on a non-full session. -/
theorem send_then_pop_amended_witness :
    ((Session.send_message (fun _ => Except.ok ⟨some (MessageContent.text "A")⟩)
        (Session.new 1) "a").2.pop_last_interaction).history
      = if (Session.new 1).history.length = (Session.new 1).capacity
          then (Session.new 1).history.tail else (Session.new 1).history :=
  send_then_pop_amended (fun _ => Except.ok ⟨some (MessageContent.text "A")⟩)
    (Session.new 1) "a" rfl

/-- `append_to_history` never changes the capacity of the deque. -/
theorem append_to_history_capacity (s : Session) (i : Interaction) :
    (s.append_to_history i).capacity = s.capacity := by
  simp only [Session.append_to_history]
  split <;> rfl

/-- Sliding-window characterisation of folding `append_to_history`: starting
from any session whose history fits its (positive) capacity, after appending
a list of interactions the history is the concatenation with the suffix that
exceeds the capacity dropped from the front. -/
theorem append_all_history_drop :
    ∀ (is : List Interaction) (s : Session), 1 ≤ s.capacity →
      s.history.length ≤ s.capacity →
      (append_all s is).history
        = (s.history ++ is).drop (s.history.length + is.length - s.capacity) := by
  intro is
  induction is with
  | nil =>
    intro s h1 hlen
    simp [append_all, Nat.sub_eq_zero_of_le hlen]
  | cons i rest ih =>
    intro s h1 hlen
    obtain ⟨cap, hist⟩ := s
    simp only at h1 hlen ⊢
    show (append_all ((⟨cap, hist⟩ : Session).append_to_history i) rest).history = _
    by_cases hfull : hist.length = cap
    · rcases hist with _ | ⟨a, t⟩
      · simp at hfull
        omega
      · have happ : (⟨cap, a :: t⟩ : Session).append_to_history i
            = ⟨cap, t ++ [i]⟩ := by
          simp [Session.append_to_history, hfull]
        simp only [List.length_cons] at hfull
        rw [happ, ih ⟨cap, t ++ [i]⟩ h1 (by simp; omega)]
        have hL : (t ++ [i]).length + rest.length - cap = rest.length := by
          simp
          omega
        have hR : (a :: t).length + (i :: rest).length - cap = rest.length + 1 := by
          simp
          omega
        simp only at hL hR ⊢
        rw [hL, hR]
        simp
    · have happ : (⟨cap, hist⟩ : Session).append_to_history i
          = ⟨cap, hist ++ [i]⟩ := by
        simp [Session.append_to_history, hfull]
      rw [happ, ih ⟨cap, hist ++ [i]⟩ h1 (by simp; omega)]
      have hidx : (hist ++ [i]).length + rest.length - cap
          = hist.length + (i :: rest).length - cap := by
        simp
        omega
      simp only at hidx ⊢
      rw [hidx]
      simp

/-- C1: for every capacity `C ≥ 1` and every sequence of appended interactions
(one per successful send), the history from an initially empty session equals
the most recent `min(N, C)` interactions in chronological order (the list with
its over-capacity prefix dropped), its length is `min(N, C)`, it never exceeds
`C` at any intermediate step, and an append on a full history evicts exactly
the oldest interaction before placing the new one last. Each successful
`send_message` performs exactly one such append (last conjunct), so the fold
of appends is the history evolution of a sequence of successful sends. -/
theorem bounded_history_fifo (C : Nat) (hC : 1 ≤ C) (is : List Interaction) :
    (append_all (Session.new C) is).history = is.drop (is.length - C) ∧
    (append_all (Session.new C) is).history.length = min is.length C ∧
    (∀ n, (append_all (Session.new C) (is.take n)).history.length ≤ C) ∧
    (∀ (s : Session) (i : Interaction), s.capacity = C → s.history.length = C →
      (s.append_to_history i).history = s.history.tail ++ [i]) ∧
    (∀ (backend : List ChatMessage → Except GenaiError ChatResponse)
       (s : Session) (content resp : String),
      (Session.send_message backend s content).1 = RunResult.ok resp →
      (Session.send_message backend s content).2
        = s.append_to_history
            ⟨ChatMessage.user content, ChatMessage.assistant resp⟩) := by
  have key : ∀ js : List Interaction,
      (append_all (Session.new C) js).history = js.drop (js.length - C) := by
    intro js
    have h := append_all_history_drop js (Session.new C) hC (by simp [Session.new])
    simpa [Session.new] using h
  refine ⟨key is, ?_, ?_, ?_, ?_⟩
  · rw [key is, List.length_drop]
    omega
  · intro n
    rw [key (is.take n), List.length_drop]
    omega
  · intro s i hcap hfull
    simp [Session.append_to_history, hcap, hfull]
  · intro backend s content resp h
    rw [send_message_eq] at h ⊢
    rcases hU : User.send_message backend (request_of s content) with r | e | _ <;>
      rw [hU] at h <;> simp at h
    subst h
    rfl

/-- Witness for C1 at capacity 2 and three appended interactions. -/
theorem bounded_history_fifo_witness :
    1 ≤ 2 ∧
    ((append_all (Session.new 2)
        [⟨ChatMessage.user "a", ChatMessage.assistant "A"⟩,
         ⟨ChatMessage.user "b", ChatMessage.assistant "B"⟩,
         ⟨ChatMessage.user "c", ChatMessage.assistant "C"⟩]).history
      = [⟨ChatMessage.user "a", ChatMessage.assistant "A"⟩,
         ⟨ChatMessage.user "b", ChatMessage.assistant "B"⟩,
         ⟨ChatMessage.user "c", ChatMessage.assistant "C"⟩].drop (3 - 2) ∧
    (append_all (Session.new 2)
        [⟨ChatMessage.user "a", ChatMessage.assistant "A"⟩,
         ⟨ChatMessage.user "b", ChatMessage.assistant "B"⟩,
         ⟨ChatMessage.user "c", ChatMessage.assistant "C"⟩]).history.length
      = min 3 2 ∧
    (∀ n, (append_all (Session.new 2)
        ([⟨ChatMessage.user "a", ChatMessage.assistant "A"⟩,
          ⟨ChatMessage.user "b", ChatMessage.assistant "B"⟩,
          ⟨ChatMessage.user "c", ChatMessage.assistant "C"⟩].take n)).history.length ≤ 2) ∧
    (∀ (s : Session) (i : Interaction), s.capacity = 2 → s.history.length = 2 →
      (s.append_to_history i).history = s.history.tail ++ [i]) ∧
    (∀ (backend : List ChatMessage → Except GenaiError ChatResponse)
       (s : Session) (content resp : String),
      (Session.send_message backend s content).1 = RunResult.ok resp →
      (Session.send_message backend s content).2
        = s.append_to_history
            ⟨ChatMessage.user content, ChatMessage.assistant resp⟩)) :=
  ⟨by decide,
   bounded_history_fifo 2 (by decide)
     [⟨ChatMessage.user "a", ChatMessage.assistant "A"⟩,
      ⟨ChatMessage.user "b", ChatMessage.assistant "B"⟩,
      ⟨ChatMessage.user "c", ChatMessage.assistant "C"⟩]⟩

/-- `ONE_DAY_IN_SECS` (src/bot.rs line 16): the number of seconds in the
`Duration` constant of that name, as written in the source:
`Duration::from_secs(3600)`. -/
def ONE_DAY_IN_SECS : Nat := 3600

/-- The flush interval in seconds, from `BotData::new` (src/bot.rs line 109):
`flush_timeout: ONE_DAY_IN_SECS * conf.chat.flush_days as u32`. The flusher
loop (`start_sessions_flusher`) sleeps this same constant every iteration. -/
def flush_timeout (flush_days : Nat) : Nat :=
  ONE_DAY_IN_SECS * flush_days

/-- C7: evaluation of the flush interval at a concrete configuration. With
`flush_days = 1` the interval is 3600 seconds (one hour), not the claimed
`1 × 86400` seconds: the `ONE_DAY_IN_SECS` constant is defined as
`Duration::from_secs(3600)`, which is one hour. -/
theorem flush_timeout_is_hours_not_days :
    flush_timeout 1 = 3600 ∧ flush_timeout 1 ≠ 1 * 86400 ∧
    (∀ d, flush_timeout d = 3600 * d) := by
  refine ⟨rfl, by decide, ?_⟩
  intro d
  simp [flush_timeout, ONE_DAY_IN_SECS, Nat.mul_comm]

/-- Look up a key in an association list, returning the stored value when
present and otherwise inserting the given fresh value — the model of
DashMap's `entry(k).or_insert_with(..).clone()` used in `BotDataInner::session`.
Returns the value the caller observes together with the updated map. -/
def getOrInsert {α : Type} (m : List (Nat × α)) (k : Nat) (v : α) :
    α × List (Nat × α) :=
  match m.lookup k with
  | some w => (w, m)
  | none => (v, (k, v) :: m)

/-- Replace the value bound to a key in an association list (the write-back of
the shared per-guild map; in Rust the inner `DashMap` is shared through an
`Arc`, so mutating it updates the map stored under the guild key). -/
def setAssoc {α : Type} (m : List (Nat × α)) (k : Nat) (v : α) :
    List (Nat × α) :=
  match m with
  | [] => [(k, v)]
  | (k2, w) :: rest =>
    if k2 = k then (k, v) :: rest else (k2, w) :: setAssoc rest k v

/-- The session store of `BotDataInner` (src/bot.rs lines 45-52): the
two-level map guild id → user id → session, together with the configured
history size used by the session builder (`SessionBuilder::create_chat`
builds `Session::new(user, history_size)`). -/
structure BotDataInner where
  history_size : Nat
  sessions : List (Nat × List (Nat × Session))
deriving DecidableEq

/-- `BotDataInner::session` (src/bot.rs lines 55-73): get-or-create the
per-guild map, then get-or-create the user's session inside it (a fresh
session comes from `sbuilder.create_chat()`, i.e. `Session::new` with the
configured history size), returning the session the caller observes and the
updated store. -/
def BotDataInner.session (st : BotDataInner) (guild user : Nat) :
    Session × BotDataInner :=
  let gpair := getOrInsert st.sessions guild []
  let spair := getOrInsert gpair.1 user (Session.new st.history_size)
  (spair.1, { st with sessions := setAssoc gpair.2 guild spair.2 })

/-- `BotDataInner::flush` (src/bot.rs lines 93-97): clear the top-level map,
removing every guild entry and every user session beneath it. -/
def BotDataInner.flush (st : BotDataInner) : BotDataInner :=
  { st with sessions := [] }

/-- C6: after `flush`, the store holds no tenant map at all, and a subsequent
`session` (getOrCreate) call for any (guild, user) key — in particular every
previously-used one — returns a freshly created session whose history is
empty. -/
theorem flush_wipes_everything (st : BotDataInner) (guild user : Nat) :
    st.flush.sessions = [] ∧
    (st.flush.session guild user).1 = Session.new st.history_size ∧
    (st.flush.session guild user).1.history = [] := by
  refine ⟨rfl, ?_, ?_⟩ <;>
    simp [BotDataInner.flush, BotDataInner.session, getOrInsert, Session.new]

/-- The error type of the configuration module (`Error` in src/config.rs).
The file-level variants carry a source error in Rust; only the validation
variants are reachable in the validation stage modelled below. -/
inductive ConfigError where
  | ReadedError
  | ParserError
  | InvalidPromptSize
  | InvalidFlushDays
  | InvalidHistorySize
deriving DecidableEq

/-- The `Chat` section of the configuration (src/config.rs lines 30-35):
`prompt_size: u16`, `flush_days: u8`, `history_size: u8`, modelled as
natural numbers. -/
structure Chat where
  prompt_size : Nat
  flush_days : Nat
  history_size : Nat
deriving DecidableEq

/-- The validation stage of `App::parse` (src/config.rs lines 55-67), run
after the file has been read and deserialized successfully: reject a
`prompt_size` outside `255..=4096` with `Error::InvalidFlushDays` (as the
source does), a zero `flush_days` with `Error::InvalidFlushDays`, and a zero
`history_size` with `Error::InvalidHistorySize`; otherwise return the
configuration. -/
def App.validate (chat : Chat) : Except ConfigError Chat :=
  if ¬ (255 ≤ chat.prompt_size ∧ chat.prompt_size ≤ 4096) then
    Except.error ConfigError.InvalidFlushDays
  else if chat.flush_days = 0 then
    Except.error ConfigError.InvalidFlushDays
  else if chat.history_size = 0 then
    Except.error ConfigError.InvalidHistorySize
  else
    Except.ok chat

/-- C10: the validation stage of `App::parse` succeeds exactly when
`prompt_size` lies in `255..=4096`, `flush_days` is nonzero and
`history_size` is nonzero; when `prompt_size` is out of range the variant
returned is `InvalidFlushDays` (whose message talks about `flush_days`), and
`InvalidPromptSize` is never returned at all. -/
theorem validate_ok_and_variants (c : Chat) :
    (App.validate c = Except.ok c ↔
      (255 ≤ c.prompt_size ∧ c.prompt_size ≤ 4096 ∧
        c.flush_days ≠ 0 ∧ c.history_size ≠ 0)) ∧
    (¬ (255 ≤ c.prompt_size ∧ c.prompt_size ≤ 4096) →
      App.validate c = Except.error ConfigError.InvalidFlushDays) ∧
    (∀ e, App.validate c = Except.error e → e ≠ ConfigError.InvalidPromptSize) := by
  unfold App.validate
  split
  · rename_i h
    refine ⟨?_, fun _ => rfl, ?_⟩
    · simp
      omega
    · intro e he
      cases he
      decide
  · rename_i h
    split
    · rename_i hf
      refine ⟨?_, fun hcon => absurd (by omega : 255 ≤ c.prompt_size ∧ c.prompt_size ≤ 4096) hcon, ?_⟩
      · simp
        omega
      · intro e he
        cases he
        decide
    · rename_i hf
      split
      · rename_i hh
        refine ⟨?_, fun hcon => absurd (by omega : 255 ≤ c.prompt_size ∧ c.prompt_size ≤ 4096) hcon, ?_⟩
        · simp
          omega
        · intro e he
          cases he
          decide
      · rename_i hh
        refine ⟨?_, fun hcon => absurd (by omega : 255 ≤ c.prompt_size ∧ c.prompt_size ≤ 4096) hcon, ?_⟩
        · simp
          omega
        · intro e he
          cases he

/-- Witness for C10: an out-of-range prompt size is rejected with the
`InvalidFlushDays` variant. -/
theorem validate_ok_and_variants_witness :
    App.validate ⟨100, 1, 1⟩ = Except.error ConfigError.InvalidFlushDays :=
  (validate_ok_and_variants ⟨100, 1, 1⟩).2.1 (by decide)
